import Mathlib

/-!
Verification of the table utilities in `pysparky/utils.py`
(`create_map_from_dict`, `join_dataframes_on_column`, `union_dataframes`).

The utilities are thin glue over a host query engine: they build column
expressions and fold pairwise join/union over a variadic argument list.
We embed them shallowly:

* A `DataFrame` is a schema (list of column names) plus a bag of rows,
  each row a list of nullable integer cells.
* A `Column` expression is a small AST (`Expr`): literals and `create_map`
  nodes; `mapLookup` gives the engine evaluation of a key lookup in a
  map column.
* Engine operations the utilities call (`DataFrame.join` with
  `how="outer"`, `DataFrame.union`) are modelled concretely in the
  `Spark` namespace; they return `Except PyErr _` since the engine
  raises `AnalysisException` on invalid inputs.
* A variadic Python argument is either a single frame or a list of
  frames (`Arg`); Python's `functools.reduce` is `pyReduce`, which
  raises `TypeError` on an empty iterable, and the generator expression
  `all(column_name in df.columns for df in dataframes)` is
  `pyAll_hasColumn`, which short-circuits left to right and raises
  `AttributeError` when an element is a list rather than a frame.
* For the frame property (arguments are never mutated) a second,
  heap-level embedding is given: frames live in a `Store`, functions
  receive handles, and every engine call allocates a fresh frame at the
  end of the store.
-/

set_option autoImplicit false

/-- A scalar value a literal column can carry. -/
inductive Val where
  | str (s : String)
  | int (n : Int)
  deriving DecidableEq, Repr

/-- Column expressions built by the utilities: literals and map constructors. -/
inductive Expr where
  | lit (v : Val)
  | createMap (args : List Expr)
  deriving Repr

namespace F

/-- `pyspark.sql.functions.lit`: wrap a scalar as a literal column. -/
def lit (v : Val) : Expr := Expr.lit v

/-- `pyspark.sql.functions.create_map` applied to a list of columns: it
builds the map expression lazily; no check runs at construction time. -/
def create_map (cols : List Expr) : Expr := Expr.createMap cols

end F

/-- Engine evaluation of a (literal) column expression to a scalar. -/
def evalV : Expr → Option Val
  | .lit v => some v
  | .createMap _ => none

/-- Engine evaluation of a key lookup in the alternating key/value list
of a `create_map` node: first pair whose key evaluates to the probe. -/
def lookupPairs (k : String) : List (Expr × Expr) → Option Val
  | [] => none
  | (ke, ve) :: rest =>
    if evalV ke = some (.str k) then evalV ve else lookupPairs k rest

/-- Chunk an alternating argument list into key/value pairs (a trailing
odd element is dropped, matching the engine reading pairs). -/
def toPairs : List Expr → List (Expr × Expr)
  | a :: b :: rest => (a, b) :: toPairs rest
  | _ => []

/-- Engine semantics of `map_col[key]` for a map column. -/
def mapLookup (e : Expr) (k : String) : Option Val :=
  match e with
  | .createMap args => lookupPairs k (toPairs args)
  | _ => none

/-- `create_map_from_dict` from `pysparky/utils.py`: flatten the dict
items to `k1, v1, k2, v2, ...`, wrap each in `F.lit`, and build the map.
A Python `dict[str, int]` is a key-ordered association list with
pairwise-distinct keys. -/
def create_map_from_dict (dict_ : List (String × Int)) : Expr :=
  F.create_map ((dict_.flatMap fun kv => [Val.str kv.1, Val.int kv.2]).map F.lit)

/-- A nullable table cell. -/
abbrev Cell := Option Int

/-- A host-engine DataFrame: column names plus rows of cells. -/
structure DataFrame where
  columns : List String
  rows : List (List Cell)
  deriving DecidableEq, Repr

/-- The exceptions the Python code and the engine can raise. -/
inductive PyErr where
  | valueError (msg : String)
  | typeError (msg : String)
  | attributeError (msg : String)
  | analysisException (msg : String)
  deriving DecidableEq, Repr

namespace Spark

/-- `df1.union(df2)`: positional union; the engine only checks that the
two inputs have the same number of columns, then concatenates the rows. -/
def union (d1 d2 : DataFrame) : Except PyErr DataFrame :=
  if d1.columns.length = d2.columns.length then
    .ok { columns := d1.columns, rows := d1.rows ++ d2.rows }
  else
    .error (.analysisException "Union can only be performed on inputs with the same number of columns")

/-- SQL equality used as the join predicate: null matches nothing. -/
def keyMatch : Cell → Cell → Bool
  | some a, some b => a == b
  | _, _ => false

/-- `df1.join(df2, on=col, how="outer")` with a string join key: full
outer join on equality of `col`, the key column emitted once (coalesced),
followed by the remaining columns of `df1` then of `df2`. -/
def outerJoin (col : String) (d1 d2 : DataFrame) : Except PyErr DataFrame :=
  if col ∈ d1.columns ∧ col ∈ d2.columns then
    let i1 := d1.columns.findIdx (· == col)
    let i2 := d2.columns.findIdx (· == col)
    let n1 := d1.columns.length - 1
    let n2 := d2.columns.length - 1
    let left := d1.rows.flatMap fun r1 =>
      let k1 : Cell := r1.getD i1 none
      let ms := d2.rows.filter fun r2 => keyMatch k1 (r2.getD i2 none)
      if ms.isEmpty then
        [k1 :: (r1.eraseIdx i1 ++ List.replicate n2 (none : Cell))]
      else
        ms.map fun r2 => k1 :: (r1.eraseIdx i1 ++ r2.eraseIdx i2)
    let right := (d2.rows.filter fun r2 =>
        ¬ d1.rows.any fun r1 => keyMatch (r1.getD i1 none) (r2.getD i2 none)).map
      fun r2 => (r2.getD i2 none) :: (List.replicate n1 (none : Cell) ++ r2.eraseIdx i2)
    .ok { columns := col :: (d1.columns.eraseIdx i1 ++ d2.columns.eraseIdx i2)
          rows := left ++ right }
  else
    .error (.analysisException "cannot resolve the join column")

end Spark

/-- One variadic Python argument: a frame, or a list of frames. -/
inductive Arg where
  | df (d : DataFrame)
  | dfList (l : List DataFrame)
  deriving DecidableEq, Repr

/-- `functools.reduce(f, xs)` with no initial value: `TypeError` on an
empty iterable, otherwise a left fold starting from the first element. -/
def pyReduce {α : Type} (f : α → α → Except PyErr α) : List α → Except PyErr α
  | [] => .error (.typeError "reduce of empty iterable with no initial value")
  | x :: xs => List.foldlM f x xs

/-- `all(column_name in df.columns for df in dataframes)`: left-to-right,
short-circuiting on the first frame missing the column; an element that
is a list has no `.columns` attribute and raises. -/
def pyAll_hasColumn (col : String) : List Arg → Except PyErr Bool
  | [] => .ok true
  | .dfList _ :: _ => .error (.attributeError "list object has no attribute columns")
  | .df d :: rest =>
    if col ∈ d.columns then pyAll_hasColumn col rest else .ok false

/-- Lift a pairwise engine operation to dynamically-typed arguments, as
the reduce lambda receives them. -/
def liftArg (f : DataFrame → DataFrame → Except PyErr DataFrame) : Arg → Arg → Except PyErr Arg
  | .df d1, .df d2 => (f d1 d2).map Arg.df
  | _, _ => .error (.typeError "argument is not a DataFrame")

/-- Body of `join_dataframes_on_column` after the flattening step:
column check, then the reduce of the pairwise outer join. -/
def joinOperands (col : String) (operands : List Arg) : Except PyErr DataFrame :=
  match pyAll_hasColumn col operands with
  | .error e => .error e
  | .ok false => .error (.valueError ("Column " ++ col ++ " not found in all DataFrames"))
  | .ok true =>
    match pyReduce (liftArg (Spark.outerJoin col)) operands with
    | .error e => .error e
    | .ok (.df d) => .ok d
    | .ok (.dfList _) => .error (.typeError "result is not a DataFrame")

/-- `join_dataframes_on_column` from `pysparky/utils.py`: raise if no
argument was given; if the first argument is a list it becomes the whole
argument sequence; then check the column and fold the outer join. -/
def join_dataframes_on_column (column_name : String) (dataframes : List Arg) : Except PyErr DataFrame :=
  match dataframes with
  | [] => .error (.valueError "At least one DataFrame must be provided")
  | .dfList l :: _ => joinOperands column_name (l.map Arg.df)
  | dfs => joinOperands column_name dfs

/-- Body of `union_dataframes` after the flattening step: the reduce of
the pairwise union, with no validation of its own. -/
def unionOperands (operands : List Arg) : Except PyErr DataFrame :=
  match pyReduce (liftArg Spark.union) operands with
  | .error e => .error e
  | .ok (.df d) => .ok d
  | .ok (.dfList _) => .error (.typeError "result is not a DataFrame")

/-- `union_dataframes` from `pysparky/utils.py`: raise if no argument was
given; flatten a leading list; fold the pairwise union. -/
def union_dataframes (dataframes : List Arg) : Except PyErr DataFrame :=
  match dataframes with
  | [] => .error (.valueError "At least one DataFrame must be provided")
  | .dfList l :: _ => unionOperands (l.map Arg.df)
  | dfs => unionOperands dfs

/-! ### Heap-level embedding

Python `DataFrame` objects live on a heap and the utilities receive
references. To state that the utilities never mutate an argument, the
same code is embedded once more over an explicit store: a handle is an
index into a list of frames, reads use `List.get?`, and each engine
call allocates its (new) result at the end of the store. -/

/-- The heap of DataFrame objects; a handle is an index into it. -/
abbrev Store := List DataFrame

/-- One variadic argument at heap level: a handle, or a list of handles. -/
inductive HArg where
  | hdf (h : Nat)
  | hlist (hs : List Nat)
  deriving DecidableEq, Repr

namespace Spark

/-- Heap-level `df1.join(df2, on=col, how="outer")`: read both operands,
allocate the joined frame at the end of the store. -/
def outerJoinH (col : String) (s : Store) (h1 h2 : Nat) : Except PyErr (Store × Nat) :=
  match s.get? h1, s.get? h2 with
  | some d1, some d2 =>
    match outerJoin col d1 d2 with
    | .ok d => .ok (s ++ [d], s.length)
    | .error e => .error e
  | _, _ => .error (.typeError "invalid DataFrame handle")

/-- Heap-level `df1.union(df2)`: read both operands, allocate the result
at the end of the store. -/
def unionH (s : Store) (h1 h2 : Nat) : Except PyErr (Store × Nat) :=
  match s.get? h1, s.get? h2 with
  | some d1, some d2 =>
    match union d1 d2 with
    | .ok d => .ok (s ++ [d], s.length)
    | .error e => .error e
  | _, _ => .error (.typeError "invalid DataFrame handle")

end Spark

/-- The reduce lambda at heap level: both operands must be handles. -/
def joinArgH (col : String) (s : Store) : HArg → HArg → Except PyErr (Store × HArg)
  | .hdf h1, .hdf h2 => (Spark.outerJoinH col s h1 h2).map fun p => (p.1, .hdf p.2)
  | _, _ => .error (.typeError "argument is not a DataFrame")

/-- The union reduce lambda at heap level. -/
def unionArgH (s : Store) : HArg → HArg → Except PyErr (Store × HArg)
  | .hdf h1, .hdf h2 => (Spark.unionH s h1 h2).map fun p => (p.1, .hdf p.2)
  | _, _ => .error (.typeError "argument is not a DataFrame")

/-- Left fold of a store-threading binary operation, as `reduce` runs it
once it has taken the first element as accumulator. -/
def foldH (f : Store → HArg → HArg → Except PyErr (Store × HArg))
    (s : Store) (a : HArg) : List HArg → Except PyErr (Store × HArg)
  | [] => .ok (s, a)
  | y :: ys =>
    match f s a y with
    | .error e => .error e
    | .ok (s2, a2) => foldH f s2 a2 ys

/-- `functools.reduce` at heap level. -/
def pyReduceH (f : Store → HArg → HArg → Except PyErr (Store × HArg))
    (s : Store) : List HArg → Except PyErr (Store × HArg)
  | [] => .error (.typeError "reduce of empty iterable with no initial value")
  | x :: xs => foldH f s x xs

/-- The column check at heap level: reads frames, writes nothing. -/
def pyAll_hasColumnH (col : String) (s : Store) : List HArg → Except PyErr Bool
  | [] => .ok true
  | .hlist _ :: _ => .error (.attributeError "list object has no attribute columns")
  | .hdf h :: rest =>
    match s.get? h with
    | some d => if col ∈ d.columns then pyAll_hasColumnH col s rest else .ok false
    | none => .error (.typeError "invalid DataFrame handle")

/-- Heap-level body of `join_dataframes_on_column` after flattening. -/
def joinOperandsH (col : String) (s : Store) (operands : List HArg) : Except PyErr (Store × Nat) :=
  match pyAll_hasColumnH col s operands with
  | .error e => .error e
  | .ok false => .error (.valueError ("Column " ++ col ++ " not found in all DataFrames"))
  | .ok true =>
    match pyReduceH (joinArgH col) s operands with
    | .error e => .error e
    | .ok (s2, .hdf h) => .ok (s2, h)
    | .ok (_, .hlist _) => .error (.typeError "result is not a DataFrame")

/-- Heap-level `join_dataframes_on_column`: same control flow as the
value-level embedding, over handles into the store. -/
def join_dataframes_on_column_H (column_name : String) (s : Store) (dataframes : List HArg) :
    Except PyErr (Store × Nat) :=
  match dataframes with
  | [] => .error (.valueError "At least one DataFrame must be provided")
  | .hlist l :: _ => joinOperandsH column_name s (l.map HArg.hdf)
  | dfs => joinOperandsH column_name s dfs

/-- Heap-level body of `union_dataframes` after flattening. -/
def unionOperandsH (s : Store) (operands : List HArg) : Except PyErr (Store × Nat) :=
  match pyReduceH unionArgH s operands with
  | .error e => .error e
  | .ok (s2, .hdf h) => .ok (s2, h)
  | .ok (_, .hlist _) => .error (.typeError "result is not a DataFrame")

/-- Heap-level `union_dataframes`. -/
def union_dataframes_H (s : Store) (dataframes : List HArg) : Except PyErr (Store × Nat) :=
  match dataframes with
  | [] => .error (.valueError "At least one DataFrame must be provided")
  | .hlist l :: _ => unionOperandsH s (l.map HArg.hdf)
  | dfs => unionOperandsH s dfs

/-! ### Helper lemmas -/

/-- On a sequence of plain frames, the short-circuiting column check
agrees with the universal statement. -/
theorem pyAll_hasColumn_map_df (col : String) :
    ∀ dfs : List DataFrame,
      pyAll_hasColumn col (dfs.map Arg.df) = .ok (decide (∀ x ∈ dfs, col ∈ x.columns))
  | [] => by simp [pyAll_hasColumn]
  | d :: rest => by
    by_cases hd : col ∈ d.columns
    · simp [pyAll_hasColumn, hd, pyAll_hasColumn_map_df col rest]
    · simp [pyAll_hasColumn, hd]

/-- Bind on a success reduces to the continuation. -/
theorem except_bind_ok {α β : Type} (a : α) (f : α → Except PyErr β) :
    (Except.ok a >>= f) = f a := rfl

/-- Bind on an exception propagates it. -/
theorem except_bind_error {α β : Type} (e : PyErr) (f : α → Except PyErr β) :
    ((Except.error e : Except PyErr α) >>= f) = Except.error e := rfl

/-- The reduce lambda over dynamically-typed arguments computes the
fold of the underlying engine operation when all arguments are frames. -/
theorem foldlM_liftArg (f : DataFrame → DataFrame → Except PyErr DataFrame) :
    ∀ (ds : List DataFrame) (d : DataFrame),
      List.foldlM (liftArg f) (Arg.df d) (ds.map Arg.df) =
        Except.map Arg.df (List.foldlM f d ds)
  | [], d => rfl
  | x :: xs, d => by
    simp only [List.map_cons, List.foldlM_cons]
    cases h : f d x with
    | error e =>
      have h1 : liftArg f (Arg.df d) (Arg.df x) = Except.error e := by
        simp [liftArg, h, Except.map]
      rw [h1, except_bind_error, except_bind_error]
      rfl
    | ok d2 =>
      have h1 : liftArg f (Arg.df d) (Arg.df x) = Except.ok (Arg.df d2) := by
        simp [liftArg, h, Except.map]
      rw [h1, except_bind_ok, except_bind_ok, foldlM_liftArg f xs d2]

/-- After a successful column check, `joinOperands` is the engine fold. -/
theorem joinOperands_fold (col : String) (d : DataFrame) (ds : List DataFrame)
    (h : ∀ x ∈ d :: ds, col ∈ x.columns) :
    joinOperands col ((d :: ds).map Arg.df) = List.foldlM (Spark.outerJoin col) d ds := by
  have hall : pyAll_hasColumn col ((d :: ds).map Arg.df) = .ok true := by
    rw [pyAll_hasColumn_map_df col (d :: ds), decide_eq_true h]
  rw [joinOperands, hall]
  have hred : pyReduce (liftArg (Spark.outerJoin col)) ((d :: ds).map Arg.df) =
      Except.map Arg.df (List.foldlM (Spark.outerJoin col) d ds) := by
    simp only [List.map_cons, pyReduce]
    exact foldlM_liftArg (Spark.outerJoin col) ds d
  rw [hred]
  cases List.foldlM (Spark.outerJoin col) d ds with
  | error e => rfl
  | ok r => rfl

/-- `unionOperands` is the engine fold, with no check of its own. -/
theorem unionOperands_fold (d : DataFrame) (ds : List DataFrame) :
    unionOperands ((d :: ds).map Arg.df) = List.foldlM Spark.union d ds := by
  rw [unionOperands]
  have hred : pyReduce (liftArg Spark.union) ((d :: ds).map Arg.df) =
      Except.map Arg.df (List.foldlM Spark.union d ds) := by
    simp only [List.map_cons, pyReduce]
    exact foldlM_liftArg Spark.union ds d
  rw [hred]
  cases List.foldlM Spark.union d ds with
  | error e => rfl
  | ok r => rfl

/-- A pairwise outer join on a column both operands carry succeeds, and
its output carries the column again (it is emitted first). -/
theorem outerJoin_ok (col : String) (d1 d2 : DataFrame)
    (h1 : col ∈ d1.columns) (h2 : col ∈ d2.columns) :
    ∃ r, Spark.outerJoin col d1 d2 = .ok r ∧ col ∈ r.columns := by
  rw [Spark.outerJoin, if_pos ⟨h1, h2⟩]
  exact ⟨_, rfl, List.mem_cons_self _ _⟩

/-- The left fold of the outer join over frames that all carry the
column succeeds. -/
theorem outerJoin_fold_ok (col : String) :
    ∀ (ds : List DataFrame) (d : DataFrame), col ∈ d.columns →
      (∀ x ∈ ds, col ∈ x.columns) →
      ∃ r, List.foldlM (Spark.outerJoin col) d ds = .ok r ∧ col ∈ r.columns
  | [], d, hd, _ => ⟨d, rfl, hd⟩
  | x :: xs, d, hd, hall => by
    obtain ⟨r1, hr1, hcol1⟩ := outerJoin_ok col d x hd (hall x (List.mem_cons_self x xs))
    obtain ⟨r, hr, hcol⟩ := outerJoin_fold_ok col xs r1 hcol1
      (fun y hy => hall y (List.mem_cons_of_mem x hy))
    refine ⟨r, ?_, hcol⟩
    rw [List.foldlM_cons, hr1]
    exact hr

/-- Flattening dictionary items to `k1, v1, k2, v2, ...`, wrapping them
as literals and chunking back into pairs recovers the literal pairs. -/
theorem toPairs_flat :
    ∀ d : List (String × Int),
      toPairs ((d.flatMap fun kv => [Val.str kv.1, Val.int kv.2]).map F.lit) =
        d.map fun kv => (Expr.lit (.str kv.1), Expr.lit (.int kv.2))
  | [] => rfl
  | p :: rest => by
    have h1 : ((p :: rest).flatMap fun kv => [Val.str kv.1, Val.int kv.2]).map F.lit =
        Expr.lit (.str p.1) :: Expr.lit (.int p.2) ::
          ((rest.flatMap fun kv => [Val.str kv.1, Val.int kv.2]).map F.lit) := by
      rw [List.flatMap_cons]
      rfl
    rw [h1]
    show (Expr.lit (.str p.1), Expr.lit (.int p.2)) ::
        toPairs ((rest.flatMap fun kv => [Val.str kv.1, Val.int kv.2]).map F.lit) =
      (p :: rest).map fun kv => (Expr.lit (.str kv.1), Expr.lit (.int kv.2))
    rw [toPairs_flat rest]
    rfl

/-- Looking a key up in the literal pair list of a duplicate-free
dictionary yields that key's value. -/
theorem lookupPairs_map (k : String) (v : Int) :
    ∀ d : List (String × Int), (d.map Prod.fst).Nodup → (k, v) ∈ d →
      lookupPairs k (d.map fun kv => (Expr.lit (.str kv.1), Expr.lit (.int kv.2))) =
        some (.int v)
  | [], _, hmem => absurd hmem (List.not_mem_nil _)
  | (k0, v0) :: rest, hnd, hmem => by
    have hnd2 : (k0 :: rest.map Prod.fst).Nodup := by simpa using hnd
    simp only [List.map_cons, lookupPairs, evalV]
    rcases List.mem_cons.mp hmem with heq | hrest
    · rw [Prod.mk.injEq] at heq
      obtain ⟨hk, hv⟩ := heq
      subst hk
      subst hv
      simp
    · have hk : k0 ≠ k := by
        intro hkk
        subst hkk
        exact (List.nodup_cons.mp hnd2).1 (List.mem_map_of_mem Prod.fst hrest)
      rw [if_neg (by simp [hk])]
      exact lookupPairs_map k v rest (List.nodup_cons.mp hnd2).2 hrest

/-- A heap-level join only ever appends to the store. -/
theorem outerJoinH_extends (col : String) (s : Store) (h1 h2 : Nat) (s2 : Store) (n : Nat)
    (h : Spark.outerJoinH col s h1 h2 = .ok (s2, n)) : ∃ t, s2 = s ++ t := by
  unfold Spark.outerJoinH at h
  split at h
  · split at h
    · simp only [Except.ok.injEq, Prod.mk.injEq] at h
      exact ⟨_, h.1.symm⟩
    · simp at h
  · simp at h

/-- A heap-level union only ever appends to the store. -/
theorem unionH_extends (s : Store) (h1 h2 : Nat) (s2 : Store) (n : Nat)
    (h : Spark.unionH s h1 h2 = .ok (s2, n)) : ∃ t, s2 = s ++ t := by
  unfold Spark.unionH at h
  split at h
  · split at h
    · simp only [Except.ok.injEq, Prod.mk.injEq] at h
      exact ⟨_, h.1.symm⟩
    · simp at h
  · simp at h

/-- The join reduce lambda only ever appends to the store. -/
theorem joinArgH_extends (col : String) :
    ∀ (s : Store) (a b : HArg) (s2 : Store) (c : HArg),
      joinArgH col s a b = .ok (s2, c) → ∃ t, s2 = s ++ t := by
  intro s a b s2 c h
  cases a with
  | hlist l => simp [joinArgH] at h
  | hdf h1 =>
    cases b with
    | hlist l => simp [joinArgH] at h
    | hdf h2 =>
      simp only [joinArgH] at h
      cases hj : Spark.outerJoinH col s h1 h2 with
      | error e => rw [hj] at h; simp [Except.map] at h
      | ok p =>
        obtain ⟨s1, n⟩ := p
        obtain ⟨t, ht⟩ := outerJoinH_extends col s h1 h2 s1 n hj
        rw [hj] at h
        simp only [Except.map, Except.ok.injEq, Prod.mk.injEq] at h
        exact ⟨t, by rw [← h.1]; exact ht⟩

/-- The union reduce lambda only ever appends to the store. -/
theorem unionArgH_extends :
    ∀ (s : Store) (a b : HArg) (s2 : Store) (c : HArg),
      unionArgH s a b = .ok (s2, c) → ∃ t, s2 = s ++ t := by
  intro s a b s2 c h
  cases a with
  | hlist l => simp [unionArgH] at h
  | hdf h1 =>
    cases b with
    | hlist l => simp [unionArgH] at h
    | hdf h2 =>
      simp only [unionArgH] at h
      cases hj : Spark.unionH s h1 h2 with
      | error e => rw [hj] at h; simp [Except.map] at h
      | ok p =>
        obtain ⟨s1, n⟩ := p
        obtain ⟨t, ht⟩ := unionH_extends s h1 h2 s1 n hj
        rw [hj] at h
        simp only [Except.map, Except.ok.injEq, Prod.mk.injEq] at h
        exact ⟨t, by rw [← h.1]; exact ht⟩

/-- A fold of store-appending steps only ever appends to the store. -/
theorem foldH_extends (f : Store → HArg → HArg → Except PyErr (Store × HArg))
    (hf : ∀ s a b s2 c, f s a b = .ok (s2, c) → ∃ t, s2 = s ++ t) :
    ∀ (xs : List HArg) (s : Store) (a : HArg) (s2 : Store) (c : HArg),
      foldH f s a xs = .ok (s2, c) → ∃ t, s2 = s ++ t
  | [], s, a, s2, c, h => by
    simp only [foldH, Except.ok.injEq, Prod.mk.injEq] at h
    exact ⟨[], by rw [← h.1, List.append_nil]⟩
  | y :: ys, s, a, s2, c, h => by
    rw [foldH] at h
    cases hf1 : f s a y with
    | error e => rw [hf1] at h; simp at h
    | ok p =>
      obtain ⟨s1, a1⟩ := p
      rw [hf1] at h
      obtain ⟨t1, ht1⟩ := hf s a y s1 a1 hf1
      obtain ⟨t2, ht2⟩ := foldH_extends f hf ys s1 a1 s2 c h
      exact ⟨t1 ++ t2, by rw [ht2, ht1, List.append_assoc]⟩

/-- Heap-level `reduce` only ever appends to the store. -/
theorem pyReduceH_extends (f : Store → HArg → HArg → Except PyErr (Store × HArg))
    (hf : ∀ s a b s2 c, f s a b = .ok (s2, c) → ∃ t, s2 = s ++ t)
    (xs : List HArg) (s s2 : Store) (c : HArg)
    (h : pyReduceH f s xs = .ok (s2, c)) : ∃ t, s2 = s ++ t := by
  cases xs with
  | nil => simp [pyReduceH] at h
  | cons x xs => exact foldH_extends f hf xs s x s2 c h

/-- The post-flattening body of the heap-level join only appends. -/
theorem joinOperandsH_extends (col : String) (s : Store) (ops : List HArg)
    (s2 : Store) (n : Nat)
    (h : joinOperandsH col s ops = .ok (s2, n)) : ∃ t, s2 = s ++ t := by
  unfold joinOperandsH at h
  split at h
  · simp at h
  · simp at h
  · split at h
    · simp at h
    · rename_i s3 h3 heq
      simp only [Except.ok.injEq, Prod.mk.injEq] at h
      obtain ⟨t, ht⟩ := pyReduceH_extends (joinArgH col) (joinArgH_extends col) ops s s3 (.hdf h3) heq
      exact ⟨t, by rw [← h.1]; exact ht⟩
    · simp at h

/-- The post-flattening body of the heap-level union only appends. -/
theorem unionOperandsH_extends (s : Store) (ops : List HArg) (s2 : Store) (n : Nat)
    (h : unionOperandsH s ops = .ok (s2, n)) : ∃ t, s2 = s ++ t := by
  unfold unionOperandsH at h
  split at h
  · simp at h
  · rename_i s3 h3 heq
    simp only [Except.ok.injEq, Prod.mk.injEq] at h
    obtain ⟨t, ht⟩ := pyReduceH_extends unionArgH unionArgH_extends ops s s3 (.hdf h3) heq
    exact ⟨t, by rw [← h.1]; exact ht⟩
  · simp at h

/-- The left fold of the union over frames with equal column counts
succeeds, keeps the first schema, and concatenates the rows. -/
theorem union_fold_rows :
    ∀ (ds : List DataFrame) (d : DataFrame),
      (∀ x ∈ ds, x.columns.length = d.columns.length) →
      ∃ r, List.foldlM Spark.union d ds = .ok r ∧ r.columns = d.columns ∧
        r.rows.length = d.rows.length + (ds.map fun x => x.rows.length).sum
  | [], d, _ => ⟨d, rfl, rfl, by simp⟩
  | x :: xs, d, hall => by
    have hx : x.columns.length = d.columns.length := hall x (List.mem_cons_self x xs)
    have hstep : Spark.union d x = .ok ⟨d.columns, d.rows ++ x.rows⟩ := by
      rw [Spark.union, if_pos hx.symm]
    obtain ⟨r, hr, hcols, hlen⟩ := union_fold_rows xs ⟨d.columns, d.rows ++ x.rows⟩
      (fun y hy => hall y (List.mem_cons_of_mem x hy))
    refine ⟨r, ?_, hcols, ?_⟩
    · rw [List.foldlM_cons, hstep]
      exact hr
    · rw [hlen]
      simp [Nat.add_assoc]

/-! ### Claims -/

/-- C1: for every non-empty sequence of frames that all carry the join
column, `join_dataframes_on_column` returns exactly the left-to-right
fold of the pairwise outer join over the supplied order, that is
`((d1 join d2) join d3) ... join dn`, and that fold succeeds. -/
theorem claim_C1_join_is_left_fold (col : String) (d : DataFrame) (ds : List DataFrame)
    (h : ∀ x ∈ d :: ds, col ∈ x.columns) :
    join_dataframes_on_column col ((d :: ds).map Arg.df) =
      List.foldlM (Spark.outerJoin col) d ds ∧
    ∃ r, List.foldlM (Spark.outerJoin col) d ds = Except.ok r := by
  constructor
  · show joinOperands col ((d :: ds).map Arg.df) = _
    exact joinOperands_fold col d ds h
  · obtain ⟨r, hr, _⟩ := outerJoin_fold_ok col ds d (h d (List.mem_cons_self d ds))
      (fun x hx => h x (List.mem_cons_of_mem d hx))
    exact ⟨r, hr⟩

/-- C1 witness: two concrete single-row frames sharing column `k`. -/
theorem claim_C1_witness :
    (∀ x ∈ [(⟨["k", "a"], [[some 1, some 10]]⟩ : DataFrame),
        ⟨["k", "b"], [[some 2, some 20]]⟩], "k" ∈ x.columns) ∧
    (join_dataframes_on_column "k"
        ([(⟨["k", "a"], [[some 1, some 10]]⟩ : DataFrame),
          ⟨["k", "b"], [[some 2, some 20]]⟩].map Arg.df) =
        List.foldlM (Spark.outerJoin "k") ⟨["k", "a"], [[some 1, some 10]]⟩
          [⟨["k", "b"], [[some 2, some 20]]⟩] ∧
      ∃ r, List.foldlM (Spark.outerJoin "k") ⟨["k", "a"], [[some 1, some 10]]⟩
          [⟨["k", "b"], [[some 2, some 20]]⟩] = Except.ok r) :=
  ⟨by decide, claim_C1_join_is_left_fold "k" ⟨["k", "a"], [[some 1, some 10]]⟩
    [⟨["k", "b"], [[some 2, some 20]]⟩] (by decide)⟩

/-- C2: for a dictionary (a key-ordered association list with distinct
keys), looking up any original key in the map column built by
`create_map_from_dict` reproduces the original value. -/
theorem claim_C2_map_roundtrip (d : List (String × Int))
    (hnd : (d.map Prod.fst).Nodup) (k : String) (v : Int) (hmem : (k, v) ∈ d) :
    mapLookup (create_map_from_dict d) k = some (.int v) := by
  show lookupPairs k
      (toPairs ((d.flatMap fun kv => [Val.str kv.1, Val.int kv.2]).map F.lit)) = some (.int v)
  rw [toPairs_flat]
  exact lookupPairs_map k v d hnd hmem

/-- C2 witness: the docstring dictionary from the source. -/
theorem claim_C2_witness :
    ((([("a", (1 : Int)), ("b", 2)].map Prod.fst).Nodup ∧
        ("b", (2 : Int)) ∈ [("a", (1 : Int)), ("b", 2)]) ∧
      mapLookup (create_map_from_dict [("a", 1), ("b", 2)]) "b" = some (.int 2)) :=
  ⟨⟨by decide, by decide⟩,
    claim_C2_map_roundtrip [("a", 1), ("b", 2)] (by decide) "b" 2 (by decide)⟩

/-- C3: joining or unioning zero frames raises `ValueError` at once; no
join or union result is ever produced. -/
theorem claim_C3_zero_args_error (col : String) :
    join_dataframes_on_column col [] =
      .error (.valueError "At least one DataFrame must be provided") ∧
    union_dataframes [] =
      .error (.valueError "At least one DataFrame must be provided") :=
  ⟨rfl, rfl⟩

/-- C4: on a non-empty sequence of frames of which at least one lacks
the join column, `join_dataframes_on_column` raises `ValueError` and
returns no join result. -/
theorem claim_C4_missing_column_error (col : String) (d : DataFrame) (ds : List DataFrame)
    (h : ∃ x ∈ d :: ds, col ∉ x.columns) :
    join_dataframes_on_column col ((d :: ds).map Arg.df) =
      .error (.valueError ("Column " ++ col ++ " not found in all DataFrames")) := by
  have hfalse : ¬ ∀ x ∈ d :: ds, col ∈ x.columns := by
    obtain ⟨x, hx, hnot⟩ := h
    exact fun hall => hnot (hall x hx)
  show joinOperands col ((d :: ds).map Arg.df) = _
  rw [joinOperands, pyAll_hasColumn_map_df col (d :: ds), decide_eq_false hfalse]

/-- C4 witness: a single frame without the requested column `k`. -/
theorem claim_C4_witness :
    (∃ x ∈ [(⟨["a"], [[some 1]]⟩ : DataFrame)], "k" ∉ x.columns) ∧
    join_dataframes_on_column "k" ([(⟨["a"], [[some 1]]⟩ : DataFrame)].map Arg.df) =
      .error (.valueError ("Column " ++ "k" ++ " not found in all DataFrames")) :=
  ⟨by decide, claim_C4_missing_column_error "k" ⟨["a"], [[some 1]]⟩ [] (by decide)⟩

/-- C5: for every non-empty sequence of frames, `union_dataframes`
returns exactly the left-to-right fold of the pairwise engine union,
with no hypothesis on the schemas: the function adds no
schema-compatibility validation of its own, so a mismatch surfaces only
as the engine's own error inside the fold. -/
theorem claim_C5_union_is_left_fold (d : DataFrame) (ds : List DataFrame) :
    union_dataframes ((d :: ds).map Arg.df) = List.foldlM Spark.union d ds := by
  show unionOperands ((d :: ds).map Arg.df) = _
  exact unionOperands_fold d ds

/-- C6: unioning N frames with compatible schemas yields a frame whose
row count is the sum of the N input row counts. -/
theorem claim_C6_union_rowcount (d : DataFrame) (ds : List DataFrame)
    (h : ∀ x ∈ d :: ds, x.columns.length = d.columns.length) :
    ∃ r, union_dataframes ((d :: ds).map Arg.df) = .ok r ∧
      r.rows.length = ((d :: ds).map fun x => x.rows.length).sum := by
  obtain ⟨r, hr, _, hlen⟩ := union_fold_rows ds d (fun x hx => h x (List.mem_cons_of_mem d hx))
  refine ⟨r, ?_, ?_⟩
  · show unionOperands ((d :: ds).map Arg.df) = _
    rw [unionOperands_fold d ds, hr]
  · rw [hlen]
    simp

/-- C6 witness: a two-row frame and a one-row frame, one column each. -/
theorem claim_C6_witness :
    (∀ x ∈ [(⟨["a"], [[some 1], [some 2]]⟩ : DataFrame), ⟨["b"], [[some 3]]⟩],
        x.columns.length = (⟨["a"], [[some 1], [some 2]]⟩ : DataFrame).columns.length) ∧
    ∃ r, union_dataframes
        ([(⟨["a"], [[some 1], [some 2]]⟩ : DataFrame), ⟨["b"], [[some 3]]⟩].map Arg.df) = .ok r ∧
      r.rows.length =
        ([(⟨["a"], [[some 1], [some 2]]⟩ : DataFrame), ⟨["b"], [[some 3]]⟩].map
          fun x => x.rows.length).sum :=
  ⟨by decide, claim_C6_union_rowcount ⟨["a"], [[some 1], [some 2]]⟩ [⟨["b"], [[some 3]]⟩]
    (by decide)⟩

/-- C7 counterexample: on the empty mapping `create_map_from_dict` does
not fail: the body runs no check, and the engine accepts the empty
argument list, so the call returns the empty `create_map` column
expression as a normal value, and even looking a key up in it evaluates
to null rather than raising. -/
theorem claim_C7_counterexample :
    create_map_from_dict [] = F.create_map [] ∧
    mapLookup (create_map_from_dict []) "a" = none :=
  ⟨rfl, rfl⟩

/-- C7 amended: `create_map_from_dict` raises no error on the empty
mapping; it returns the empty-map column, in which every key lookup
evaluates to null. -/
theorem claim_C7_empty_map_ok (k : String) :
    create_map_from_dict [] = F.create_map [] ∧
    mapLookup (create_map_from_dict []) k = none :=
  ⟨rfl, rfl⟩

/-- C8: at heap level, a successful call of either utility only appends
freshly allocated frames to the store: every frame the caller passed in
is still at its handle, unchanged, so the inputs are passed through
unmutated. -/
theorem claim_C8_no_mutation (col : String) (s : Store) (args : List HArg)
    (s2 : Store) (n : Nat) :
    (join_dataframes_on_column_H col s args = .ok (s2, n) → ∃ t, s2 = s ++ t) ∧
    (union_dataframes_H s args = .ok (s2, n) → ∃ t, s2 = s ++ t) := by
  constructor
  · intro h
    cases args with
    | nil => simp [join_dataframes_on_column_H] at h
    | cons a rest =>
      cases a with
      | hlist l => exact joinOperandsH_extends col s (l.map HArg.hdf) s2 n h
      | hdf m => exact joinOperandsH_extends col s (HArg.hdf m :: rest) s2 n h
  · intro h
    cases args with
    | nil => simp [union_dataframes_H] at h
    | cons a rest =>
      cases a with
      | hlist l => exact unionOperandsH_extends s (l.map HArg.hdf) s2 n h
      | hdf m => exact unionOperandsH_extends s (HArg.hdf m :: rest) s2 n h

/-- C8 witness: joining a stored frame with itself leaves it at handle 0
and allocates the result at handle 1. -/
theorem claim_C8_witness :
    (join_dataframes_on_column_H "k" [⟨["k"], [[some 1]]⟩] [HArg.hdf 0, HArg.hdf 0] =
      .ok ([⟨["k"], [[some 1]]⟩, ⟨["k"], [[some 1]]⟩], 1)) ∧
    ∃ t, ([(⟨["k"], [[some 1]]⟩ : DataFrame), ⟨["k"], [[some 1]]⟩] : Store) =
      [⟨["k"], [[some 1]]⟩] ++ t :=
  ⟨rfl, (claim_C8_no_mutation "k" [⟨["k"], [[some 1]]⟩] [HArg.hdf 0, HArg.hdf 0]
    [⟨["k"], [[some 1]]⟩, ⟨["k"], [[some 1]]⟩] 1).1 rfl⟩

/-- C9: when the first variadic argument is a list of frames, that list
becomes the whole operand sequence for both utilities, the remaining
variadic arguments are ignored, and the join goes on to its column check
over this flattened sequence (the check is the first step of
`joinOperands`). -/
theorem claim_C9_first_list_flattens (col : String) (l : List DataFrame) (rest : List Arg) :
    join_dataframes_on_column col (Arg.dfList l :: rest) = joinOperands col (l.map Arg.df) ∧
    union_dataframes (Arg.dfList l :: rest) = unionOperands (l.map Arg.df) :=
  ⟨rfl, rfl⟩

/-- C10: on a single frame (carrying the join column, in the join case)
both utilities return that frame itself: the fold starts from it and has
nothing left to combine. -/
theorem claim_C10_singleton_identity (col : String) (d : DataFrame) (h : col ∈ d.columns) :
    join_dataframes_on_column col [Arg.df d] = .ok d ∧
    union_dataframes [Arg.df d] = .ok d := by
  constructor
  · show joinOperands col [Arg.df d] = .ok d
    have hall : pyAll_hasColumn col [Arg.df d] = .ok true := by
      simp [pyAll_hasColumn, h]
    rw [joinOperands, hall]
    rfl
  · rfl

/-- C10 witness: a one-column one-row frame joined and unioned alone. -/
theorem claim_C10_witness :
    ("k" ∈ (⟨["k"], [[some 5]]⟩ : DataFrame).columns) ∧
    (join_dataframes_on_column "k" [Arg.df ⟨["k"], [[some 5]]⟩] = .ok ⟨["k"], [[some 5]]⟩ ∧
      union_dataframes [Arg.df ⟨["k"], [[some 5]]⟩] = .ok ⟨["k"], [[some 5]]⟩) :=
  ⟨by decide, claim_C10_singleton_identity "k" ⟨["k"], [[some 5]]⟩ (by decide)⟩
